import Mathlib

/-!
Verification of the PublicInput end-to-end UI test harness
(configuration layer, secret resolution, login orchestration,
page-object verification helpers) against its natural-language
specification.

The TypeScript sources are shallowly embedded: JavaScript records and
Maps become association lists over `String`, `process.env` becomes an
association list, thrown exceptions become `Except String`, and the
mutable fields of the singleton services become explicit state records
threaded through each operation.
-/

set_option autoImplicit false

/-! ## Association-list primitives

JavaScript objects (`Record<string, string>`) and `Map<string, string>`
are modelled as association lists with unique keys kept by construction.
`lookupA` is property read / `Map.get`, `setAssoc` is property write /
`Map.set` (overwrite or append), `delAssoc` is `delete obj[k]` /
`Map.delete`.
-/

def lookupA : List (String × String) → String → Option String
  | [], _ => none
  | (k, v) :: rest, key => if k = key then some v else lookupA rest key

def setAssoc : List (String × String) → String → String → List (String × String)
  | [], key, val => [(key, val)]
  | (k, v) :: rest, key, val =>
      if k = key then (key, val) :: rest else (k, v) :: setAssoc rest key val

def delAssoc (m : List (String × String)) (key : String) : List (String × String) :=
  m.filter (fun p => p.1 ≠ key)

theorem lookupA_setAssoc_self (m : List (String × String)) (k v : String) :
    lookupA (setAssoc m k v) k = some v := by
  induction m with
  | nil => simp [lookupA, setAssoc]
  | cons hd tl ih =>
      obtain ⟨k1, v1⟩ := hd
      by_cases h : k1 = k
      · simp [setAssoc, h, lookupA]
      · simp [setAssoc, h, lookupA, ih]

theorem lookupA_delAssoc_self (m : List (String × String)) (k : String) :
    lookupA (delAssoc m k) k = none := by
  induction m with
  | nil => simp [lookupA, delAssoc]
  | cons hd tl ih =>
      obtain ⟨k1, v1⟩ := hd
      by_cases h : k1 = k
      · simpa [delAssoc, h] using ih
      · simpa [delAssoc, h, lookupA] using ih

/-! ## JavaScript string truthiness

`if (x)` on a `string | undefined` takes the then-branch exactly when
the value is present and nonempty (the empty string is falsy in JS).
`truthy` captures that test.
-/

def truthy : Option String → Bool
  | none => false
  | some s => !s.isEmpty

theorem truthy_some_iff (o : Option String) :
    truthy o = true ↔ ∃ s, o = some s ∧ s ≠ "" := by
  constructor
  · intro h
    cases o with
    | none => simp [truthy] at h
    | some s =>
        refine ⟨s, rfl, ?_⟩
        intro he
        subst he
        exact absurd h (by decide)
  · rintro ⟨s, rfl, hne⟩
    have hf : s.isEmpty = false := by
      cases he : s.isEmpty
      · rfl
      · exact absurd ((String.isEmpty_iff s).mp he) hne
    simp [truthy, hf]

/-! ## SecretManager (src/services/SecretManager.ts)

State of the secret-resolution subsystem:
`secretCache` is the private `Map<string, string>` of the singleton,
`secretKeys` is `settings.userAccountSecretMap.secretKeys`, and `env`
is `process.env`.
-/

structure SecretState where
  secretCache : List (String × String)
  secretKeys : List (String × String)
  env : List (String × String)
  deriving DecidableEq, Repr

/-- The email-based fallback environment key
used in `retrievePassword`: every character outside
ASCII letters and digits is replaced by an underscore. -/
def sanitizeEmailChar (c : Char) : Char :=
  if (('a' ≤ c ∧ c ≤ 'z') ∨ ('A' ≤ c ∧ c ≤ 'Z') ∨ ('0' ≤ c ∧ c ≤ '9'))
    then c else '_'

/-- The key queried by the second fallback in `retrievePassword` and
`retrievePasswordSync`: the sanitized, upper-cased email prefixed with
PASSWORD_. -/
def emailEnvKey (email : String) : String :=
  "PASSWORD_" ++ (email.map sanitizeEmailChar).toUpper

/-- `SecretManager.retrievePasswordSync`.  Returns the password together
with the updated state (the cache may gain an entry); a thrown exception
is an `Except.error` carrying the message.  The password source cascade
mirrors lines 81-90 of the source: a truthy `process.env[secretKey]`,
then a truthy `process.env[emailEnvKey email]`, then the secret key
itself. -/
def retrievePasswordSync (st : SecretState) (email : String) :
    Except String (String × SecretState) :=
  match lookupA st.secretCache email with
  | some cached => .ok (cached, st)
  | none =>
      match lookupA st.secretKeys email with
      | none => .error ("No secret key found for email: " ++ email)
      | some secretKey =>
          if secretKey = "" then
            .error ("No secret key found for email: " ++ email)
          else
            let password :=
              match lookupA st.env secretKey with
              | some v =>
                  if v ≠ "" then v
                  else
                    match lookupA st.env (emailEnvKey email) with
                    | some w => if w ≠ "" then w else secretKey
                    | none => secretKey
              | none =>
                  match lookupA st.env (emailEnvKey email) with
                  | some w => if w ≠ "" then w else secretKey
                  | none => secretKey
            .ok (password, { st with secretCache := setAssoc st.secretCache email password })

/-- `SecretManager.retrievePassword` (the async variant, lines 24-60).
Its body is the same cascade as the synchronous version; `await` has no
observable effect in the embedding. -/
def retrievePassword (st : SecretState) (email : String) :
    Except String (String × SecretState) :=
  match lookupA st.secretCache email with
  | some cached => .ok (cached, st)
  | none =>
      match lookupA st.secretKeys email with
      | none => .error ("No secret key found for email: " ++ email)
      | some secretKey =>
          if secretKey = "" then
            .error ("No secret key found for email: " ++ email)
          else
            let password :=
              match lookupA st.env secretKey with
              | some v =>
                  if v ≠ "" then v
                  else
                    match lookupA st.env (emailEnvKey email) with
                    | some w => if w ≠ "" then w else secretKey
                    | none => secretKey
              | none =>
                  match lookupA st.env (emailEnvKey email) with
                  | some w => if w ≠ "" then w else secretKey
                  | none => secretKey
            .ok (password, { st with secretCache := setAssoc st.secretCache email password })

/-- `SecretManager.clearCache`. -/
def clearCache (st : SecretState) : SecretState :=
  { st with secretCache := [] }

/-- `SecretManager.hasAccount`: the JS `in` test on the secret map. -/
def hasAccount (st : SecretState) (email : String) : Bool :=
  (lookupA st.secretKeys email).isSome

/-- `SecretManager.addAccount`: writes the secret map, leaves the cache
untouched. -/
def addAccount (st : SecretState) (email secretKey : String) : SecretState :=
  { st with secretKeys := setAssoc st.secretKeys email secretKey }

/-- `SecretManager.removeAccount`: deletes the secret-map entry and the
cache entry for the email. -/
def removeAccount (st : SecretState) (email : String) : SecretState :=
  { st with secretKeys := delAssoc st.secretKeys email,
            secretCache := delAssoc st.secretCache email }

/-! ## Configuration layer (src/config/AppSettings.ts,
src/config/ConfigurationManager.ts)

`jsParseInt` models `parseInt(s, 10)` on the digit strings the harness
uses: `none` stands for `NaN` (no leading digits).  Numeric settings
that flow through `parseInt` are therefore `Option Nat` fields, with
`none` representing `NaN`.
-/

def jsParseInt (s : String) : Option Nat :=
  let digits := s.data.takeWhile Char.isDigit
  if digits.isEmpty then none else String.toNat? (String.mk digits)

structure CityzenSettings where
  baseUrl : String
  deriving DecidableEq, Repr

structure BrowserSettings where
  browser : String
  headless : Bool
  slowMo : Option Nat
  timeout : Option Nat
  viewport : Option (Nat × Nat)
  deriving DecidableEq, Repr

structure TestSettings where
  screenshotBehavior : String
  screenshotContainer : String
  retries : Option Nat
  parallel : Bool
  workers : Option Nat
  deriving DecidableEq, Repr

structure AzureBlobStorageConfiguration where
  shouldGenerateSasUri : Bool
  sasExpiryHours : Nat
  connectionString : String
  deriving DecidableEq, Repr

structure UserAccountSecretMap where
  secretKeys : List (String × String)
  deriving DecidableEq, Repr

structure AppSettings where
  userAccountSecretMap : UserAccountSecretMap
  cityzenSettings : CityzenSettings
  browserSettings : BrowserSettings
  testSettings : TestSettings
  azureBlobStorageConfiguration : Option AzureBlobStorageConfiguration
  deriving DecidableEq, Repr

/-- `DEFAULT_APP_SETTINGS` from src/config/AppSettings.ts. -/
def DEFAULT_APP_SETTINGS : AppSettings where
  userAccountSecretMap :=
    { secretKeys :=
        [("admin_test@publicinput.org", "TestAdminPassword"),
         ("dataviewer_test@publicinput.org", "TestDataViewerPassword"),
         ("editor_test@publicinput.org", "TestEditorPassword"),
         ("none_test@publicinput.org", "TestNonePassword"),
         ("publisher_test@publicinput.org", "TestPublisherPassword"),
         ("superadmintest@publicinput.com", "TestSuperAdminPassword")] }
  cityzenSettings := { baseUrl := "https://publicinput.com" }
  browserSettings :=
    { browser := "Chromium", headless := true, slowMo := none,
      timeout := some 60000, viewport := some (1920, 1080) }
  testSettings :=
    { screenshotBehavior := "OnlyOnFailures",
      screenshotContainer := "publicinput-acceptance-tests",
      retries := some 2, parallel := true, workers := some 4 }
  azureBlobStorageConfiguration :=
    some { shouldGenerateSasUri := true, sasExpiryHours := 336,
           connectionString := "" }

/-- `ConfigurationManager.loadUserAccountSecrets`: every environment
entry whose key starts with USER_SECRET_ and whose value is truthy is
written into the secret map under the key with that prefix removed
(`key.replace('USER_SECRET_', '')` removes the first occurrence, which
under the `startsWith` guard is the 12-character prefix). -/
def loadUserAccountSecrets (env : List (String × String)) (s : AppSettings) : AppSettings :=
  env.foldl
    (fun acc kv =>
      if kv.1.startsWith "USER_SECRET_" && !kv.2.isEmpty then
        { acc with userAccountSecretMap :=
            { secretKeys :=
                setAssoc acc.userAccountSecretMap.secretKeys (kv.1.drop 12) kv.2 } }
      else acc)
    s

/-- `ConfigurationManager.buildSettingsFromEnvironment`: starts from the
defaults and applies each environment override in source order.
`HEADLESS` is a presence test (`!== undefined`); the other scalar
overrides are JS truthiness tests. -/
def buildSettingsFromEnvironment (env : List (String × String)) : AppSettings :=
  let s := DEFAULT_APP_SETTINGS
  let s :=
    match lookupA env "BASE_URL" with
    | some v => if v ≠ "" then { s with cityzenSettings := { baseUrl := v } } else s
    | none => s
  let s :=
    match lookupA env "BROWSER" with
    | some v =>
        if v ≠ "" then { s with browserSettings := { s.browserSettings with browser := v } } else s
    | none => s
  let s :=
    match lookupA env "HEADLESS" with
    | some v => { s with browserSettings := { s.browserSettings with headless := v = "true" } }
    | none => s
  let s :=
    match lookupA env "TIMEOUT" with
    | some v =>
        if v ≠ "" then { s with browserSettings := { s.browserSettings with timeout := jsParseInt v } } else s
    | none => s
  let s :=
    match lookupA env "SCREENSHOT_BEHAVIOR" with
    | some v =>
        if v ≠ "" then { s with testSettings := { s.testSettings with screenshotBehavior := v } } else s
    | none => s
  let s :=
    match lookupA env "SCREENSHOT_CONTAINER" with
    | some v =>
        if v ≠ "" then { s with testSettings := { s.testSettings with screenshotContainer := v } } else s
    | none => s
  let s :=
    match lookupA env "RETRIES" with
    | some v =>
        if v ≠ "" then { s with testSettings := { s.testSettings with retries := jsParseInt v } } else s
    | none => s
  let s :=
    match lookupA env "WORKERS" with
    | some v =>
        if v ≠ "" then { s with testSettings := { s.testSettings with workers := jsParseInt v } } else s
    | none => s
  let s :=
    match lookupA env "AZURE_STORAGE_CONNECTION_STRING" with
    | some v =>
        if v ≠ "" then
          let base : AzureBlobStorageConfiguration :=
            s.azureBlobStorageConfiguration.getD
              { shouldGenerateSasUri := false, sasExpiryHours := 0, connectionString := "" }
          { s with azureBlobStorageConfiguration := some { base with connectionString := v } }
        else s
    | none => s
  loadUserAccountSecrets env s

structure ConfigurationManager where
  environment : String
  settings : AppSettings
  deriving DecidableEq, Repr

/-- The private `ConfigurationManager` constructor: reads
`process.env.ENV || 'dev'` and runs `loadConfiguration`.  The dotenv
merge of the `.env.<environment>` file into `process.env` happens in
the external library, so `env` here is the already-merged environment
that `buildSettingsFromEnvironment` reads. -/
def ConfigurationManager.construct (env : List (String × String)) : ConfigurationManager where
  environment :=
    match lookupA env "ENV" with
    | some v => if v ≠ "" then v else "dev"
    | none => "dev"
  settings := buildSettingsFromEnvironment env

/-- `ConfigurationManager.getInstance`: the static `instance` field is
the explicit `Option ConfigurationManager` state; the call returns the
instance together with the updated static field. -/
def ConfigurationManager.getInstance (inst : Option ConfigurationManager)
    (env : List (String × String)) :
    ConfigurationManager × Option ConfigurationManager :=
  match inst with
  | none =>
      let c := ConfigurationManager.construct env
      (c, some c)
  | some c => (c, some c)

/-- `ConfigurationManager.getSettings`. -/
def ConfigurationManager.getSettings (c : ConfigurationManager) : AppSettings :=
  c.settings

/-! ## User types and login helpers (src/utils/user-login-helpers.ts) -/

inductive UserType
  | SUPER_ADMIN
  | ADMIN
  | DATA_VIEWER
  | EDITOR
  | NONE
  | PUBLISHER
  deriving DecidableEq, Repr

/-- The string value of each member of the TypeScript string enum. -/
def UserType.value : UserType → String
  | .SUPER_ADMIN => "SUPER_ADMIN"
  | .ADMIN => "ADMIN"
  | .DATA_VIEWER => "DATA_VIEWER"
  | .EDITOR => "EDITOR"
  | .NONE => "NONE"
  | .PUBLISHER => "PUBLISHER"

/-- The per-role login routines of `UserLoginHelpers` that
`loginAsUser` dispatches to.  `loginAsAdmin` records the customer id it
received (its declared default is 1087). -/
inductive LoginRoutine
  | loginAsSuperAdmin
  | loginAsAdmin (customerId : String)
  | loginAsDataViewer
  | loginAsEditor
  | loginAsNone
  | loginAsPublisher
  deriving DecidableEq, Repr

/-- The `switch (userType)` of `UserLoginHelpers.loginAsUser`, written
over the enum's string value so that the `default` branch (throw
Unsupported user type) is part of the embedding. -/
def loginAsUserDispatch (s : String) (customerId : Option String) :
    Except String LoginRoutine :=
  if s = "SUPER_ADMIN" then .ok .loginAsSuperAdmin
  else if s = "ADMIN" then .ok (.loginAsAdmin (customerId.getD "1087"))
  else if s = "DATA_VIEWER" then .ok .loginAsDataViewer
  else if s = "EDITOR" then .ok .loginAsEditor
  else if s = "NONE" then .ok .loginAsNone
  else if s = "PUBLISHER" then .ok .loginAsPublisher
  else .error ("Unsupported user type: " ++ s)

/-- `UserLoginHelpers.loginAsUser` applied to an enum member. -/
def loginAsUser (userType : UserType) (customerId : Option String) :
    Except String LoginRoutine :=
  loginAsUserDispatch userType.value customerId

/-- `UserLoginHelpers.getUserTypeDisplayName`: the `displayNames`
record lookup, total on the enum. -/
def getUserTypeDisplayName : UserType → String
  | .SUPER_ADMIN => "Super Admin"
  | .ADMIN => "Admin"
  | .DATA_VIEWER => "Data Viewer"
  | .EDITOR => "Editor"
  | .NONE => "None"
  | .PUBLISHER => "Publisher"

structure UserCredentials where
  email : String
  password : String
  userType : UserType
  deriving DecidableEq, Repr

/-- `UserLoginHelpers.getUserCredentials`: looks the email up in
`envConfig.getUserEmails()` (a record keyed by the enum values, passed
in here as `userEmails`), throws on a falsy email, and resolves the
password through `secretManager.retrievePasswordSync`. -/
def getUserCredentials (userEmails : List (String × String)) (st : SecretState)
    (userType : UserType) : Except String UserCredentials :=
  match lookupA userEmails userType.value with
  | none => .error ("Email not found for user type: " ++ userType.value)
  | some email =>
      if email = "" then
        .error ("Email not found for user type: " ++ userType.value)
      else
        match retrievePasswordSync st email with
        | .error e => .error e
        | .ok (password, _) =>
            .ok { email := email, password := password, userType := userType }

/-! ## Bounded login retry loop (src/pages/CRMPage.ts lines 57-86 and
the identical SegmentationPage.retryLogin in src/pages/LoginPage.ts
lines 618-647)

The attempt oracle `attempt i` tells whether the i-th performed login
attempt (0-based) succeeds, abstracting the per-role login routine and
the live application.  The loop state carries the source's
`loginAttempts` counter; `tried` counts login attempts actually
performed and `waits` counts the `waitForTimeout(2000)` back-off calls,
so the bound and pacing claims can be stated.  The result is the
loop's outcome together with those two counters.
-/

def retryLoginErrorMsg (maxAttempts : Nat) : String :=
  "login failed after " ++ toString maxAttempts ++ " attempts"

def retryLoginLoop (attempt : Nat → Bool) (maxAttempts loginAttempts tried waits : Nat) :
    Except String Unit × Nat × Nat :=
  if h : loginAttempts < maxAttempts then
    if attempt tried then
      (.ok (), tried + 1, waits)
    else if loginAttempts + 1 ≥ maxAttempts then
      (.error (retryLoginErrorMsg maxAttempts), tried + 1, waits)
    else
      retryLoginLoop attempt maxAttempts (loginAttempts + 1) (tried + 1) (waits + 1)
  else
    (.ok (), tried, waits)
termination_by maxAttempts - loginAttempts

/-- `retryLogin` entry point: `loginAttempts = 0`,
`loginSuccessful = false`, default `maxAttempts = 2`. -/
def retryLogin (attempt : Nat → Bool) (maxAttempts : Nat := 2) :
    Except String Unit × Nat × Nat :=
  retryLoginLoop attempt maxAttempts 0 0 0

/-! ## BasePage.isElementVisible (src/pages/BasePage.ts lines 81-91)

`waitResult` is the outcome of the wrapped
`page.waitForSelector(selector, \x7b state: 'visible', timeout: 5000 \x7d)`
call: `Except.ok` when the element became visible within the timeout,
`Except.error` when the automation engine threw (timeout or any other
failure).  The method catches everything and returns a `Bool`.
-/

def isElementVisible (waitResult : Except String Unit) : Bool :=
  match waitResult with
  | .ok _ => true
  | .error _ => false

/-- `CRMPage.verifyCRMHomePageVisible` and its peers: each verify*
method returns `isElementVisible` of the wait on its selector. -/
def verifyCRMHomePageVisible (waitResult : Except String Unit) : Bool :=
  isElementVisible waitResult

/-! ## SegmentationPage counts (src/pages/LoginPage.ts lines 596-898)

A loaded page is modelled as an association list from selector to the
text content of the matched element; a selector absent from the list
stands for a `getText` that throws (element not found), which the
getters catch by returning 0.
-/

def totalCountElement : String := "xpath=//span[@id=\"mcount\"]"

def potentialSegmentMembersCount : String := "xpath=//span[@id=\"mcount\"]"

/-- `countText.replace(/\D/g, '')`: keep only the decimal digits. -/
def digitsOf (s : String) : String :=
  String.mk (s.data.filter Char.isDigit)

/-- `parseInt(countText.replace(/\D/g, '')) || 0`: parse the digit
string, 0 when it is empty (`parseInt('')` is `NaN`, which `|| 0`
turns into 0). -/
def parseCount (s : String) : Nat :=
  ((digitsOf s).toNat?).getD 0

/-- `SegmentationPage.getTotalCountBelowMembersTable`. -/
def getTotalCountBelowMembersTable (pageTexts : List (String × String)) : Nat :=
  match lookupA pageTexts totalCountElement with
  | some t => parseCount t
  | none => 0

/-- `SegmentationPage.getPotentialSegmentMembersCount`. -/
def getPotentialSegmentMembersCount (pageTexts : List (String × String)) : Nat :=
  match lookupA pageTexts potentialSegmentMembersCount with
  | some t => parseCount t
  | none => 0

/-- `SegmentationPage.verifyTotalCountEqualsPotentialCount`. -/
def verifyTotalCountEqualsPotentialCount (pageTexts : List (String × String)) : Bool :=
  getTotalCountBelowMembersTable pageTexts == getPotentialSegmentMembersCount pageTexts

/-! ## Supporting lemmas for secret resolution -/

/-- `Except` success test. -/
def isOkE {α : Type} (x : Except String α) : Bool :=
  match x with
  | .ok _ => true
  | .error _ => false

/-- The async and sync retrieval bodies are the same cascade; the two
embedded functions agree definitionally. -/
theorem retrievePassword_def_eq (st : SecretState) (email : String) :
    retrievePassword st email = retrievePasswordSync st email := rfl

/-- A cached email is answered from the cache with no state change. -/
theorem retrievePasswordSync_cacheHit (st : SecretState) (email p : String)
    (hc : lookupA st.secretCache email = some p) :
    retrievePasswordSync st email = .ok (p, st) := by
  unfold retrievePasswordSync
  rw [hc]

/-- Fresh resolution when the secret key is mapped and its environment
variable carries a truthy value. -/
theorem retrievePasswordSync_cacheMiss (st : SecretState) (email secretKey v : String)
    (hc : lookupA st.secretCache email = none)
    (hk : lookupA st.secretKeys email = some secretKey)
    (hk0 : secretKey ≠ "")
    (hv : lookupA st.env secretKey = some v)
    (hv0 : v ≠ "") :
    retrievePasswordSync st email =
      .ok (v, { st with secretCache := setAssoc st.secretCache email v }) := by
  unfold retrievePasswordSync
  rw [hc, hk]
  simp [hk0, hv, hv0]

/-- A successful retrieval leaves the returned password in the cache. -/
theorem retrievePasswordSync_ok_cache (st st' : SecretState) (email p : String)
    (h : retrievePasswordSync st email = .ok (p, st')) :
    lookupA st'.secretCache email = some p := by
  unfold retrievePasswordSync at h
  split at h
  · rename_i cached hcache
    simp only [Except.ok.injEq, Prod.mk.injEq] at h
    obtain ⟨hp, hst⟩ := h
    rw [← hst, ← hp]
    exact hcache
  · rename_i hcache
    split at h
    · simp at h
    · rename_i secretKey hkey
      split at h
      · simp at h
      · rename_i hk0
        simp only [Except.ok.injEq, Prod.mk.injEq] at h
        obtain ⟨hp, hst⟩ := h
        rw [← hst, ← hp]
        exact lookupA_setAssoc_self st.secretCache email _

/-! ## Claims about secret resolution -/

/-- C1: for every user email with a secret-map entry, when the email is
not yet cached and the environment variable named by that secret key
holds the user's password (present with a nonempty value, as JS
truthiness requires), both `SecretManager.retrievePassword` and
`SecretManager.retrievePasswordSync` return exactly that environment
variable's value. -/
theorem retrievePassword_returns_env_value (st : SecretState) (email secretKey v : String)
    (hc : lookupA st.secretCache email = none)
    (hk : lookupA st.secretKeys email = some secretKey)
    (hk0 : secretKey ≠ "")
    (hv : lookupA st.env secretKey = some v)
    (hv0 : v ≠ "") :
    retrievePassword st email =
      .ok (v, { st with secretCache := setAssoc st.secretCache email v }) ∧
    retrievePasswordSync st email =
      .ok (v, { st with secretCache := setAssoc st.secretCache email v }) := by
  have hs := retrievePasswordSync_cacheMiss st email secretKey v hc hk hk0 hv hv0
  exact ⟨(retrievePassword_def_eq st email).trans hs, hs⟩

/-- C1 witness: concrete resolution from the environment. -/
theorem retrievePassword_returns_env_value_witness :
    retrievePasswordSync
        ⟨[], [("admin_test@publicinput.org", "TestAdminPassword")],
         [("TestAdminPassword", "pw1")]⟩
        "admin_test@publicinput.org" =
      .ok ("pw1",
        ⟨[("admin_test@publicinput.org", "pw1")],
         [("admin_test@publicinput.org", "TestAdminPassword")],
         [("TestAdminPassword", "pw1")]⟩) := by
  have h := retrievePassword_returns_env_value
    ⟨[], [("admin_test@publicinput.org", "TestAdminPassword")], [("TestAdminPassword", "pw1")]⟩
    "admin_test@publicinput.org" "TestAdminPassword" "pw1"
    (by decide) (by decide) (by decide) (by decide) (by decide)
  simpa [setAssoc] using h.2

/-- C2: secret resolution is memoized.  After one successful
`retrievePassword` or `retrievePasswordSync` call has produced password
`p` and state `st'`, every subsequent call for that email — through
either entry point, and whatever the secret map and the environment
have become — answers `p` from the cache and leaves the state
unchanged; in particular two consecutive retrievals agree. -/
theorem retrievePassword_memoized (st st' : SecretState) (email p : String)
    (h : retrievePasswordSync st email = .ok (p, st') ∨
         retrievePassword st email = .ok (p, st')) :
    (∀ keys env2, retrievePasswordSync ⟨st'.secretCache, keys, env2⟩ email =
        .ok (p, ⟨st'.secretCache, keys, env2⟩)) ∧
    (∀ keys env2, retrievePassword ⟨st'.secretCache, keys, env2⟩ email =
        .ok (p, ⟨st'.secretCache, keys, env2⟩)) ∧
    retrievePasswordSync st' email = .ok (p, st') ∧
    retrievePassword st' email = .ok (p, st') := by
  have hsync : retrievePasswordSync st email = .ok (p, st') := by
    cases h with
    | inl h => exact h
    | inr h => exact (retrievePassword_def_eq st email).symm.trans h
  have hcache := retrievePasswordSync_ok_cache st st' email p hsync
  refine ⟨?_, ?_, ?_, ?_⟩
  · intro keys env2
    exact retrievePasswordSync_cacheHit ⟨st'.secretCache, keys, env2⟩ email p hcache
  · intro keys env2
    exact (retrievePassword_def_eq _ email).trans
      (retrievePasswordSync_cacheHit ⟨st'.secretCache, keys, env2⟩ email p hcache)
  · exact retrievePasswordSync_cacheHit st' email p hcache
  · exact (retrievePassword_def_eq st' email).trans
      (retrievePasswordSync_cacheHit st' email p hcache)

/-- C2 witness: after one successful retrieval, the cached password is
returned even with the secret map and environment emptied. -/
theorem retrievePassword_memoized_witness :
    retrievePasswordSync ⟨[("a@b.c", "pw")], [], []⟩ "a@b.c" =
      .ok ("pw", ⟨[("a@b.c", "pw")], [], []⟩) :=
  (retrievePassword_memoized ⟨[], [("a@b.c", "K")], [("K", "pw")]⟩
      ⟨[("a@b.c", "pw")], [("a@b.c", "K")], [("K", "pw")]⟩ "a@b.c" "pw"
      (Or.inl rfl)).1 [] []

/-- C7 counterexample: an email whose secret-map entry is the empty
string has an entry (`hasAccount` reports it), is not cached, and yet
both retrieval functions throw: JS `!secretKey` treats a
present-but-empty secret key as missing. -/
theorem retrieve_throws_despite_map_entry :
    hasAccount ⟨[], [("user@example.com", "")], []⟩ "user@example.com" = true ∧
    retrievePasswordSync ⟨[], [("user@example.com", "")], []⟩ "user@example.com" =
      .error ("No secret key found for email: " ++ "user@example.com") ∧
    retrievePassword ⟨[], [("user@example.com", "")], []⟩ "user@example.com" =
      .error ("No secret key found for email: " ++ "user@example.com") :=
  ⟨rfl, rfl, rfl⟩

/-- C7 (amended): retrieval succeeds exactly when the email has a
cached password or the secret map carries a nonempty secret key for it;
it throws exactly when the email is uncached and its map entry is
missing or the empty string (which JS `!secretKey` also treats as
missing).  Stated for both entry points. -/
theorem retrieve_ok_iff_cached_or_usable_key (st : SecretState) (email : String) :
    isOkE (retrievePasswordSync st email) =
      ((lookupA st.secretCache email).isSome || truthy (lookupA st.secretKeys email)) ∧
    isOkE (retrievePassword st email) =
      ((lookupA st.secretCache email).isSome || truthy (lookupA st.secretKeys email)) := by
  have key : isOkE (retrievePasswordSync st email) =
      ((lookupA st.secretCache email).isSome || truthy (lookupA st.secretKeys email)) := by
    unfold retrievePasswordSync
    cases hc : lookupA st.secretCache email with
    | some cached => simp [isOkE, hc]
    | none =>
        cases hk : lookupA st.secretKeys email with
        | none => simp [isOkE, hc, hk, truthy]
        | some k =>
            by_cases hk0 : k = ""
            · subst hk0
              simp [isOkE, hc, hk, truthy]
              decide
            · have hke : k.isEmpty = false := by
                cases he : k.isEmpty
                · rfl
                · exact absurd ((String.isEmpty_iff k).mp he) hk0
              simp [isOkE, hc, hk, truthy, hk0, hke]
  exact ⟨key, (congrArg isOkE (retrievePassword_def_eq st email)).trans key⟩

/-- C9: the async `retrievePassword` and the synchronous
`retrievePasswordSync` are behaviorally equivalent: from any shared
cache, secret map and environment, they return the same value or throw
under the same condition, and leave the cache in the same final
state. -/
theorem retrievePassword_equiv_retrievePasswordSync (st : SecretState) (email : String) :
    retrievePassword st email = retrievePasswordSync st email ∧
    (∀ e, retrievePassword st email = .error e ↔ retrievePasswordSync st email = .error e) ∧
    (∀ p st', retrievePassword st email = .ok (p, st') ↔
        retrievePasswordSync st email = .ok (p, st')) :=
  ⟨rfl, fun _ => Iff.rfl, fun _ _ => Iff.rfl⟩

/-- C10: a cached password shadows the secret map.  While the cache
holds `p` for the email, both retrieval functions return `p` with the
state unchanged, even after `addAccount` rebinds the email's secret key
and under any replacement environment; `removeAccount` and `clearCache`
are what delete the cache entry. -/
theorem cache_shadows_secret_map (st : SecretState) (email p : String)
    (hc : lookupA st.secretCache email = some p) :
    retrievePasswordSync st email = .ok (p, st) ∧
    retrievePassword st email = .ok (p, st) ∧
    (∀ newKey, retrievePasswordSync (addAccount st email newKey) email =
        .ok (p, addAccount st email newKey)) ∧
    (∀ env2, retrievePasswordSync ⟨st.secretCache, st.secretKeys, env2⟩ email =
        .ok (p, ⟨st.secretCache, st.secretKeys, env2⟩)) ∧
    lookupA (removeAccount st email).secretCache email = none ∧
    lookupA (clearCache st).secretCache email = none := by
  refine ⟨retrievePasswordSync_cacheHit st email p hc,
          (retrievePassword_def_eq st email).trans (retrievePasswordSync_cacheHit st email p hc),
          ?_, ?_, ?_, ?_⟩
  · intro newKey
    exact retrievePasswordSync_cacheHit (addAccount st email newKey) email p hc
  · intro env2
    exact retrievePasswordSync_cacheHit ⟨st.secretCache, st.secretKeys, env2⟩ email p hc
  · exact lookupA_delAssoc_self st.secretCache email
  · rfl

/-- C10 witness: the stale cached password survives a secret-key
rebinding. -/
theorem cache_shadows_secret_map_witness :
    retrievePasswordSync
        (addAccount ⟨[("u@x.y", "old")], [("u@x.y", "K")], [("K", "new")]⟩ "u@x.y" "K2")
        "u@x.y" =
      .ok ("old", addAccount ⟨[("u@x.y", "old")], [("u@x.y", "K")], [("K", "new")]⟩ "u@x.y" "K2") :=
  (cache_shadows_secret_map ⟨[("u@x.y", "old")], [("u@x.y", "K")], [("K", "new")]⟩ "u@x.y" "old"
      (by decide)).2.2.1 "K2"

/-! ## Lemmas for the bounded retry loop -/

theorem retryLoginLoop_tried_le (attempt : Nat → Bool) :
    ∀ d maxAttempts l t w, maxAttempts - l = d →
      (retryLoginLoop attempt maxAttempts l t w).2.1 ≤ t + (maxAttempts - l) := by
  intro d
  induction d with
  | zero =>
      intro maxAttempts l t w hd
      have hnl : ¬ l < maxAttempts := by omega
      unfold retryLoginLoop
      rw [dif_neg hnl]
      show t ≤ t + (maxAttempts - l)
      omega
  | succ n ih =>
      intro maxAttempts l t w hd
      have hl : l < maxAttempts := by omega
      unfold retryLoginLoop
      rw [dif_pos hl]
      by_cases ha : attempt t = true
      · rw [if_pos ha]
        show t + 1 ≤ t + (maxAttempts - l)
        omega
      · rw [if_neg ha]
        by_cases hge : l + 1 ≥ maxAttempts
        · rw [if_pos hge]
          show t + 1 ≤ t + (maxAttempts - l)
          omega
        · rw [if_neg hge]
          have h2 := ih maxAttempts (l + 1) (t + 1) (w + 1) (by omega)
          omega

theorem retryLoginLoop_first_success (attempt : Nat → Bool) :
    ∀ d maxAttempts l, maxAttempts - l = d → l < maxAttempts →
      ∀ k, l ≤ k → k < maxAttempts → attempt k = true →
      (∀ i, l ≤ i → i < k → attempt i = false) →
      retryLoginLoop attempt maxAttempts l l l = (.ok (), k + 1, k) := by
  intro d
  induction d with
  | zero =>
      intro maxAttempts l hd hl k hlk hk ha hprev
      omega
  | succ n ih =>
      intro maxAttempts l hd hl k hlk hk ha hprev
      unfold retryLoginLoop
      rw [dif_pos hl]
      by_cases hEq : k = l
      · subst hEq
        rw [if_pos ha]
      · have hlt : l < k := by omega
        have hal : attempt l = false := hprev l le_rfl hlt
        rw [if_neg (by simp [hal])]
        have hge : ¬ l + 1 ≥ maxAttempts := by omega
        rw [if_neg hge]
        exact ih maxAttempts (l + 1) (by omega) (by omega) k (by omega) hk ha
          (fun i h1 h2 => hprev i (by omega) h2)

theorem retryLoginLoop_all_fail (attempt : Nat → Bool) :
    ∀ d maxAttempts l, maxAttempts - l = d → l < maxAttempts →
      (∀ i, l ≤ i → i < maxAttempts → attempt i = false) →
      retryLoginLoop attempt maxAttempts l l l =
        (.error (retryLoginErrorMsg maxAttempts), maxAttempts, maxAttempts - 1) := by
  intro d
  induction d with
  | zero =>
      intro maxAttempts l hd hl hall
      omega
  | succ n ih =>
      intro maxAttempts l hd hl hall
      unfold retryLoginLoop
      rw [dif_pos hl]
      rw [if_neg (by simp [hall l le_rfl hl])]
      by_cases hge : l + 1 ≥ maxAttempts
      · rw [if_pos hge]
        have hm : maxAttempts = l + 1 := by omega
        subst hm
        simp
      · rw [if_neg hge]
        exact ih maxAttempts (l + 1) (by omega) (by omega)
          (fun i h1 h2 => hall i (by omega) h2)

/-! ## Remaining claims -/

/-- C3: the login retry loop is bounded.  For every attempt oracle
(covering every user type's login routine) and every
`maxAttempts ≥ 1`: at most `maxAttempts` attempts are performed; if the
first success is attempt `k` (its predecessors having failed) the loop
returns right there with `k + 1` attempts and a back-off wait before
each of the `k` retries; if all `maxAttempts` attempts fail it throws;
and the default `maxAttempts` is 2. -/
theorem retryLogin_bounded (attempt : Nat → Bool) (maxAttempts : Nat)
    (hmax : 1 ≤ maxAttempts) :
    (retryLogin attempt maxAttempts).2.1 ≤ maxAttempts ∧
    (∀ k, k < maxAttempts → attempt k = true → (∀ i, i < k → attempt i = false) →
      retryLogin attempt maxAttempts = (.ok (), k + 1, k)) ∧
    ((∀ i, i < maxAttempts → attempt i = false) →
      retryLogin attempt maxAttempts =
        (.error (retryLoginErrorMsg maxAttempts), maxAttempts, maxAttempts - 1)) ∧
    retryLogin attempt = retryLoginLoop attempt 2 0 0 0 := by
  refine ⟨?_, ?_, ?_, rfl⟩
  · have h := retryLoginLoop_tried_le attempt maxAttempts maxAttempts 0 0 0 rfl
    simpa [retryLogin] using h
  · intro k hk ha hprev
    have h := retryLoginLoop_first_success attempt maxAttempts maxAttempts 0 rfl
      (by omega) k (Nat.zero_le k) hk ha (fun i _ h2 => hprev i h2)
    simpa [retryLogin] using h
  · intro hall
    have h := retryLoginLoop_all_fail attempt maxAttempts maxAttempts 0 rfl
      (by omega) (fun i _ h2 => hall i h2)
    simpa [retryLogin] using h

/-- C3 witness: with the default bound of two attempts, failure then
success returns after the second attempt with one wait, and two
failures throw after exactly two attempts. -/
theorem retryLogin_bounded_witness :
    retryLogin (fun i => i == 1) 2 = (.ok (), 2, 1) ∧
    retryLogin (fun _ => false) 2 = (.error (retryLoginErrorMsg 2), 2, 1) := by
  constructor
  · exact (retryLogin_bounded (fun i => i == 1) 2 (by omega)).2.1 1 (by omega) rfl
      (fun i hi => by
        have h0 : i = 0 := Nat.lt_one_iff.mp hi
        subst h0
        rfl)
  · exact (retryLogin_bounded (fun _ => false) 2 (by omega)).2.2.1 (fun i _ => rfl)

/-- C4: after the members table has loaded (both count elements carry a
text), `verifyTotalCountEqualsPotentialCount` returns true exactly when
the digit-parsed total count below the members table equals the
digit-parsed potential segment members count, each getter reading its
count from the digits of its element's text. -/
theorem verifyTotalCount_iff_counts_equal (pageTexts : List (String × String)) (t1 t2 : String)
    (h1 : lookupA pageTexts totalCountElement = some t1)
    (h2 : lookupA pageTexts potentialSegmentMembersCount = some t2) :
    (verifyTotalCountEqualsPotentialCount pageTexts = true ↔ parseCount t1 = parseCount t2) ∧
    getTotalCountBelowMembersTable pageTexts = parseCount t1 ∧
    getPotentialSegmentMembersCount pageTexts = parseCount t2 := by
  have g1 : getTotalCountBelowMembersTable pageTexts = parseCount t1 := by
    unfold getTotalCountBelowMembersTable
    rw [h1]
  have g2 : getPotentialSegmentMembersCount pageTexts = parseCount t2 := by
    unfold getPotentialSegmentMembersCount
    rw [h2]
  refine ⟨?_, g1, g2⟩
  simp [verifyTotalCountEqualsPotentialCount, g1, g2]

/-- C4 witness: a loaded page on which the check runs; both selectors
read the same element, whose text parses to 42. -/
theorem verifyTotalCount_iff_counts_equal_witness :
    verifyTotalCountEqualsPotentialCount [(totalCountElement, "Total: 42")] = true ∧
    getTotalCountBelowMembersTable [(totalCountElement, "Total: 42")] = parseCount "Total: 42" := by
  have h := verifyTotalCount_iff_counts_equal [(totalCountElement, "Total: 42")]
    "Total: 42" "Total: 42" (by decide) (by decide)
  exact ⟨h.1.mpr rfl, h.2.1⟩

/-- C5: the configuration object is a lazily initialized process-wide
singleton.  The first `getInstance` call constructs the instance (whose
settings are those loaded from the environment); any call made from the
state left by any `getInstance` call returns the identical instance and
leaves the state unchanged, even under a changed environment, so every
`getSettings` reader observes the same settings. -/
theorem configurationManager_singleton (env env2 : List (String × String))
    (inst : Option ConfigurationManager) :
    ConfigurationManager.getInstance none env =
      (ConfigurationManager.construct env, some (ConfigurationManager.construct env)) ∧
    (ConfigurationManager.construct env).settings = buildSettingsFromEnvironment env ∧
    ConfigurationManager.getInstance (ConfigurationManager.getInstance inst env).2 env2 =
      ((ConfigurationManager.getInstance inst env).1,
       (ConfigurationManager.getInstance inst env).2) ∧
    (ConfigurationManager.getInstance
        (ConfigurationManager.getInstance inst env).2 env2).1.getSettings =
      (ConfigurationManager.getInstance inst env).1.getSettings := by
  refine ⟨rfl, rfl, ?_, ?_⟩
  · cases inst <;> rfl
  · cases inst <;> rfl

/-- C6: the user-type enumeration is exactly the six roles, pairwise
distinct; `loginAsUser` dispatches every member to its role's login
routine and never reaches the Unsupported user type branch;
`getUserTypeDisplayName` returns each role's display name; and
`getUserCredentials` pairs the role's configured email with the
password resolved for that email. -/
theorem userType_roles_and_dispatch :
    (∀ u : UserType, u = .SUPER_ADMIN ∨ u = .ADMIN ∨ u = .DATA_VIEWER ∨
        u = .EDITOR ∨ u = .NONE ∨ u = .PUBLISHER) ∧
    ([UserType.SUPER_ADMIN, .ADMIN, .DATA_VIEWER, .EDITOR, .NONE, .PUBLISHER] :
        List UserType).Nodup ∧
    (∀ c, loginAsUser .SUPER_ADMIN c = .ok .loginAsSuperAdmin ∧
          loginAsUser .ADMIN c = .ok (.loginAsAdmin (c.getD "1087")) ∧
          loginAsUser .DATA_VIEWER c = .ok .loginAsDataViewer ∧
          loginAsUser .EDITOR c = .ok .loginAsEditor ∧
          loginAsUser .NONE c = .ok .loginAsNone ∧
          loginAsUser .PUBLISHER c = .ok .loginAsPublisher) ∧
    (∀ (u : UserType) (c : Option String),
        loginAsUser u c ≠ .error ("Unsupported user type: " ++ u.value)) ∧
    (getUserTypeDisplayName .SUPER_ADMIN = "Super Admin" ∧
     getUserTypeDisplayName .ADMIN = "Admin" ∧
     getUserTypeDisplayName .DATA_VIEWER = "Data Viewer" ∧
     getUserTypeDisplayName .EDITOR = "Editor" ∧
     getUserTypeDisplayName .NONE = "None" ∧
     getUserTypeDisplayName .PUBLISHER = "Publisher") ∧
    (∀ (userEmails : List (String × String)) (st : SecretState) (u : UserType)
        (email p : String) (st' : SecretState),
      lookupA userEmails u.value = some email → email ≠ "" →
      retrievePasswordSync st email = .ok (p, st') →
      getUserCredentials userEmails st u =
        .ok { email := email, password := p, userType := u }) := by
  have hdisp : ∀ c : Option String,
      loginAsUser .SUPER_ADMIN c = .ok .loginAsSuperAdmin ∧
      loginAsUser .ADMIN c = .ok (.loginAsAdmin (c.getD "1087")) ∧
      loginAsUser .DATA_VIEWER c = .ok .loginAsDataViewer ∧
      loginAsUser .EDITOR c = .ok .loginAsEditor ∧
      loginAsUser .NONE c = .ok .loginAsNone ∧
      loginAsUser .PUBLISHER c = .ok .loginAsPublisher := by
    intro c
    exact ⟨rfl, rfl, rfl, rfl, rfl, rfl⟩
  refine ⟨?_, by decide, hdisp, ?_, ⟨rfl, rfl, rfl, rfl, rfl, rfl⟩, ?_⟩
  · intro u
    cases u <;> simp
  · intro u c h
    cases u
    · rw [(hdisp c).1] at h
      simp at h
    · rw [(hdisp c).2.1] at h
      simp at h
    · rw [(hdisp c).2.2.1] at h
      simp at h
    · rw [(hdisp c).2.2.2.1] at h
      simp at h
    · rw [(hdisp c).2.2.2.2.1] at h
      simp at h
    · rw [(hdisp c).2.2.2.2.2] at h
      simp at h
  · intro userEmails st u email p st' hemail hne hpw
    unfold getUserCredentials
    rw [hemail]
    simp [hne, hpw]

/-- C6 witness: concrete credentials for the Admin role resolved from a
configured email and its secret. -/
theorem userType_roles_and_dispatch_witness :
    getUserCredentials [("ADMIN", "admin_test@publicinput.org")]
        ⟨[], [("admin_test@publicinput.org", "TestAdminPassword")], [("TestAdminPassword", "pw1")]⟩
        .ADMIN =
      .ok { email := "admin_test@publicinput.org", password := "pw1", userType := .ADMIN } :=
  userType_roles_and_dispatch.2.2.2.2.2 [("ADMIN", "admin_test@publicinput.org")]
    ⟨[], [("admin_test@publicinput.org", "TestAdminPassword")], [("TestAdminPassword", "pw1")]⟩
    .ADMIN "admin_test@publicinput.org" "pw1"
    ⟨[("admin_test@publicinput.org", "pw1")],
     [("admin_test@publicinput.org", "TestAdminPassword")], [("TestAdminPassword", "pw1")]⟩
    rfl (by decide) rfl

/-- C8: `BasePage.isElementVisible` is a total boolean check: it
returns true exactly when the wrapped visibility wait succeeds within
its timeout, false exactly when the wait throws (which the catch
absorbs, so nothing propagates), and the verify* methods built on it
return that same boolean. -/
theorem isElementVisible_is_total_boolean (w : Except String Unit) :
    (isElementVisible w = true ↔ w = .ok ()) ∧
    (isElementVisible w = false ↔ ∃ e, w = .error e) ∧
    verifyCRMHomePageVisible w = isElementVisible w := by
  refine ⟨?_, ?_, rfl⟩
  · cases w with
    | ok u =>
        cases u
        simp [isElementVisible]
    | error e => simp [isElementVisible]
  · cases w with
    | ok u =>
        cases u
        simp [isElementVisible]
    | error e =>
        constructor
        · intro _
          exact ⟨e, rfl⟩
        · intro _
          rfl
